import Mathlib

/-!
Verification development for the display-session layer
(`sdm/libs/hwc2/hwc_session.cpp` / `hwc_session.h`).

The definitions below are shallow embeddings of the session-layer
functions: slot registry bookkeeping, the hotplug/concurrency arbiter,
the validate/present pipeline controller, the pending-refresh bitset
service, and the power-hint worker's refresh-rate update loop.
Collaborator classes that live outside the session layer (`HWCDisplay`,
`Locker`) are modelled from the specification where noted.
-/

namespace HWCS

/-- HWC2 error codes used by the session layer (subset relevant here). -/
inductive HErr
  | success
  | hasChanges
  | badDisplay
  | badLayer
  | badParameter
  | notValidated
  | unsupported
deriving DecidableEq, Repr

/-! ## Pending-refresh bitset (`HWCSession::HandlePendingRefresh`)

`pending_refresh_` is a `std::bitset` over all display slots; we model it
as a list of booleans indexed by slot. `Refresh(i)` calls are recorded in
the returned list. -/

/-- Index of the lowest set bit of the bitset, if any. -/
def lowestSetBit : List Bool → Option Nat
  | [] => none
  | b :: rest => if b then some 0 else (lowestSetBit rest).map (· + 1)

/-- Embedding of `HWCSession::HandlePendingRefresh`: if no bit is set,
return immediately; otherwise issue `Refresh` for the lowest-indexed set
bit only (the loop breaks after the first hit) and then clear the whole
bitset (`pending_refresh_.reset()`). Returns the list of `Refresh` client
ids issued and the new bitset. -/
def handlePendingRefresh (pending : List Bool) : List Nat × List Bool :=
  match lowestSetBit pending with
  | none => ([], pending)
  | some i => ([i], List.replicate pending.length false)

/-! ## Sequence-lock discipline (`ValidateDisplay` / `PresentDisplay`)

The per-slot `Locker` lives in `utils/locker.h`, outside this repository
snapshot.  Its sequence-scope state is modelled from the spec: a
"sequence" scope is entered optimistically on validate (`Idle ->
Pending`), cancelled explicitly on failure (`-> Idle`), and exited
unconditionally by present (`-> Idle`). -/

/-- Sequencing state of one slot's lock token. Modelled from the spec:
the sequence-lock scope-cancel pattern is an explicit per-slot state with
cancel resetting to idle. -/
inductive SeqState
  | idle
  | pending
deriving DecidableEq, Repr

/-- Sequence-scope operations performed by the scope-lock guards. -/
inductive SeqEvent
  | entryScope
  | exitScope
  | cancelScope
deriving DecidableEq, Repr

/-- Modelled from the spec: effect of one sequence-scope operation on the
slot's sequencing state (`SEQUENCE_ENTRY/EXIT/CANCEL_SCOPE_LOCK`). -/
def seqStep : SeqState → SeqEvent → SeqState
  | _, .entryScope => .pending
  | _, .exitScope => .idle
  | _, .cancelScope => .idle

/-- Run a list of sequence-scope operations on a slot. -/
def runSeq (s : SeqState) (tr : List SeqEvent) : SeqState :=
  tr.foldl seqStep s

/-- Sequence-scope operations performed by `HWCSession::ValidateDisplay`
for a display whose validation produced outcome `st`: the body runs under
`SEQUENCE_ENTRY_SCOPE_LOCK`, and afterwards the scope is cancelled for
every outcome other than `None` or `HasChanges`. -/
def validateDisplaySeqTrace (st : HErr) : List SeqEvent :=
  [.entryScope] ++ (if st = .success ∨ st = .hasChanges then [] else [.cancelScope])

/-- Sequence-scope operations performed by `HWCSession::PresentDisplay`
for a display whose present produced outcome `st`: the body runs under
`SEQUENCE_EXIT_SCOPE_LOCK`, and afterwards the scope is cancelled for
every outcome other than `None` or `NotValidated`. -/
def presentDisplaySeqTrace (st : HErr) : List SeqEvent :=
  [.exitScope] ++ (if st = .success ∨ st = .notValidated then [] else [.cancelScope])

/-! ## Display-object model (collaborator of the session layer)

`HWCDisplay` lives outside this repository snapshot (`hwc_display.cpp`);
its validation-state machine is modelled from the spec: states
`Unvalidated -> Validated -> Presented -> Unvalidated` with a
`SkipValidate` fast path, a cached validation output reusable within the
round, and present requiring a preceding equivalent validation. -/

/-- Validation state of a display object. Modelled from the spec. -/
inductive ValidateState
  | unvalidated
  | internalValidate
  | skipValidate
deriving DecidableEq, Repr

/-- One display object, as seen by the session layer. The `pending*`
fields are the counts the next validation of the current layer stack
would report; `cached*` are the outputs of the validation that already
ran this round (`GetValidateDisplayOutput`). -/
structure Display where
  vstate : ValidateState
  pendingTypes : Nat
  pendingRequests : Nat
  cachedTypes : Nat
  cachedRequests : Nat
  hasClientComp : Bool
  canSkip : Bool
  layers : List Nat
  geometryChanges : Bool
deriving DecidableEq, Repr

/-- Modelled from the spec: `HWCDisplay::Validate` computes the counts of
composition-type changes and display requests for the current layer
stack, caches them for reuse within the round (the spec's idempotence
property: a second validate without state change is served from the
cached validation), and marks the display validated. Returns the updated
display, the two counts, and `None`/`HasChanges`. -/
def Display.validateRun (d : Display) : Display × Nat × Nat × HErr :=
  ({ d with vstate := .internalValidate,
            cachedTypes := d.pendingTypes,
            cachedRequests := d.pendingRequests },
   d.pendingTypes, d.pendingRequests,
   if d.pendingTypes = 0 then .success else .hasChanges)

/-- `HWCDisplay::IsInternalValidateState`: a validation already ran this
round and its output is cached. -/
def Display.isInternalValidateState (d : Display) : Bool :=
  d.vstate = .internalValidate

/-- `HWCDisplay::GetValidateDisplayOutput`: the cached validation
output. -/
def Display.getValidateDisplayOutput (d : Display) : Nat × Nat × HErr :=
  (d.cachedTypes, d.cachedRequests,
   if d.cachedTypes = 0 then .success else .hasChanges)

/-- Modelled from the spec: `HWCDisplay::Present` commits a validated
frame; present without a preceding validation returns `NotValidated` and
does not present. The returned flag records whether a frame was actually
presented. -/
def Display.presentRun (d : Display) : Display × HErr × Bool :=
  if d.vstate = .unvalidated then (d, .notValidated, false)
  else ({ d with vstate := .unvalidated }, .success, true)

/-- Modelled from the spec: `HWCDisplay::ResetValidation` invalidates the
display's accept-changes state, forcing a fresh validation. -/
def Display.resetValidation (d : Display) : Display :=
  { d with vstate := .unvalidated }

/-- Session flags consulted by the primary-only branch of
`ValidateDisplayInternal`. -/
structure SessionFlags where
  reset_panel : Bool
  need_invalidate : Bool
deriving DecidableEq, Repr

/-- Result of `ValidateDisplayInternal`: updated flags and display, the
two out-counts, the returned error, and whether the result was served
from the cached internal validation instead of re-running. -/
structure VDIResult where
  flags : SessionFlags
  disp : Display
  outNumTypes : Nat
  outNumRequests : Nat
  err : HErr
  servedFromCache : Bool
deriving DecidableEq, Repr

/-- Embedding of `HWCSession::ValidateDisplayInternal`: if an internal
validation already ran this round, return its cached output; otherwise,
for the primary display only, service a pending panel reset
(`ResetPanel` power-cycles and clears `reset_panel_`) and a pending
invalidate (refresh, then clear `need_invalidate_`), then delegate to the
display object's `Validate`. -/
def validateDisplayInternal (isPrimary : Bool) (fl : SessionFlags) (d : Display) :
    VDIResult :=
  if d.isInternalValidateState then
    let (t, r, e) := d.getValidateDisplayOutput
    ⟨fl, d, t, r, e, true⟩
  else
    let fl1 : SessionFlags :=
      if isPrimary then
        { reset_panel := false, need_invalidate := false }
      else fl
    let (d1, t, r, e) := d.validateRun
    ⟨fl1, d1, t, r, e, false⟩

/-- Embedding of `HWCSession::ValidateDisplay` for an in-range display
slot: `BadDisplay` when the slot is unoccupied, else
`ValidateDisplayInternal`. -/
def validateDisplay (isPrimary : Bool) (fl : SessionFlags) (slot : Option Display) :
    SessionFlags × Option Display × Option (Nat × Nat) × HErr :=
  match slot with
  | none => (fl, none, none, .badDisplay)
  | some d =>
    let res := validateDisplayInternal isPrimary fl d
    (res.flags, some res.disp, some (res.outNumTypes, res.outNumRequests), res.err)

/-- Result of `PresentDisplayInternal`: updated flags and display, the
returned error, and whether the display object actually presented a
frame. -/
structure PDIResult where
  flags : SessionFlags
  disp : Display
  err : HErr
  didPresent : Bool
deriving DecidableEq, Repr

/-- Embedding of `HWCSession::PresentDisplayInternal`: if the display is
in skip-validate state but the fast path no longer applies, run an
internal validation first; if it fails or reveals required client
composition, mark the internal-validate state and return `NotValidated`
without presenting. Otherwise delegate to the display object's
`Present`. -/
def presentDisplayInternal (isPrimary : Bool) (fl : SessionFlags) (d : Display) :
    PDIResult :=
  if d.vstate = .skipValidate ∧ ¬ d.canSkip then
    let res := validateDisplayInternal isPrimary fl d
    if res.err ≠ .success ∨ res.disp.hasClientComp then
      ⟨res.flags, { res.disp with vstate := .internalValidate }, .notValidated, false⟩
    else
      let (d2, e, p) := res.disp.presentRun
      ⟨res.flags, d2, e, p⟩
  else
    let (d2, e, p) := d.presentRun
    ⟨fl, d2, e, p⟩

/-- A freshly connected display object: no validation has run. Modelled
from the spec (slots hold a newly constructed display object on
connect). -/
def Display.freshlyConnected (d : Display) : Prop :=
  d.vstate = .unvalidated

/-- Embedding of `HWCSession::CallLayerFunction` (hwc_session.h). The
layer member function is abstracted as `op` together with its return
status; the returned flag records whether `op` was invoked. -/
def callLayerFunction (deviceOk : Bool) (numDisplays display : Nat)
    (slot : Option Display) (layer : Nat) (op : Display → Display)
    (opStatus : HErr) : Option Display × HErr × Bool :=
  if ¬ deviceOk then (slot, .badParameter, false)
  else if numDisplays ≤ display then (slot, .badDisplay, false)
  else
    match slot with
    | none => (none, .badDisplay, false)
    | some d =>
      if layer ∈ d.layers then
        let d1 := op d
        let d2 := if d1.geometryChanges then d1.resetValidation else d1
        (some d2, opStatus, true)
      else (some d, .badLayer, false)

/-! ## Hotplug & concurrency arbiter (`HandleConcurrency`,
`NonBuiltinConcurrency`)

Slot layout instantiated with one pluggable, one extra builtin and one
virtual slot, matching `InitSupportedDisplaySlots` with pool sizes 1:
primary = 0, first pluggable (external) = 1, first extra builtin = 2,
first virtual = 3.  `GetDisplayIndex` returns the first slot of each
pool, which is all the arbiter consults.  A slot's `active` flag is the
display object's activation/power state (`GetLastPowerMode() != Off`,
`ActivateDisplay`) — the display-object side is modelled from the
spec. -/

/-- Occupancy and activation of one display slot. -/
structure SlotState where
  occupied : Bool
  active : Bool
deriving DecidableEq, Repr

/-- Arbiter-visible session state: the four slots the concurrency policy
consults plus `primary_ready_`. -/
structure ConcState where
  primaryReady : Bool
  primary : SlotState
  ext : SlotState
  builtin2 : SlotState
  vir : SlotState
deriving DecidableEq, Repr

/-- Client ids as laid out by `InitSupportedDisplaySlots` with one slot
per pool. -/
def extIdx : Nat := 1
def builtin2Idx : Nat := 2
def virIdx : Nat := 3

/-- Read a slot (`hwc_display_[i]` occupancy and its activation). -/
def getSlot (s : ConcState) (i : Nat) : SlotState :=
  if i = 0 then s.primary
  else if i = extIdx then s.ext
  else if i = builtin2Idx then s.builtin2
  else if i = virIdx then s.vir
  else ⟨false, false⟩

/-- Write a slot. -/
def setSlot (s : ConcState) (i : Nat) (v : SlotState) : ConcState :=
  if i = 0 then { s with primary := v }
  else if i = extIdx then { s with ext := v }
  else if i = builtin2Idx then { s with builtin2 := v }
  else if i = virIdx then { s with vir := v }
  else s

/-- Embedding of `HWCSession::GetNextBuiltinIndex`: the client id of the
first occupied extra-builtin slot, or 0 when none is occupied. -/
def getNextBuiltinIndex (s : ConcState) : Nat :=
  if s.builtin2.occupied then builtin2Idx else 0

/-- Embedding of `HWCSession::GetSecondBuiltinStatus`: false when no
extra builtin is occupied, else whether that display's last power mode is
not off. -/
def getSecondBuiltinStatus (s : ConcState) : Bool :=
  if getNextBuiltinIndex s = 0 then false
  else
    let sl := getSlot s (getNextBuiltinIndex s)
    sl.occupied && sl.active

/-- Embedding of `HWCSession::ActivateDisplay`: no-op on an unoccupied
slot, else set the display object's activation state (the display-object
side is modelled from the spec). -/
def activateDisplay (s : ConcState) (i : Nat) (enable : Bool) : ConcState :=
  if (getSlot s i).occupied then setSlot s i ⟨true, enable⟩ else s

/-- Embedding of `HWCSession::NonBuiltinConcurrency`: run for an event on
the pluggable or virtual display; the two cannot share composition
resources with each other or with an active second builtin. -/
def nonBuiltinConcurrency (s : ConcState) (disp : Nat) (builtinActive : Bool) :
    ConcState :=
  if disp ≠ extIdx ∧ disp ≠ virIdx then s
  else
    let displayCreated := (getSlot s disp).occupied
    let cocu := if disp = extIdx then virIdx else extIdx
    let cocuPresent := (getSlot s cocu).occupied
    if displayCreated then
      if builtinActive || cocuPresent then activateDisplay s disp false else s
    else
      if !builtinActive && cocuPresent then activateDisplay s cocu true else s

/-- Embedding of `HWCSession::HandleConcurrency`: the policy handler run
after connect, disconnect and power-mode events. -/
def handleConcurrency (s : ConcState) (disp : Nat) : ConcState :=
  if ¬ s.primaryReady then s
  else
    let extPresent := s.ext.occupied
    let virPresent := s.vir.occupied
    let sec := getSecondBuiltinStatus s
    if disp = getNextBuiltinIndex s then
      if sec then
        let s1 := if extPresent then activateDisplay s extIdx false else s
        if virPresent then activateDisplay s1 virIdx false else s1
      else
        if extPresent then activateDisplay s extIdx true
        else if virPresent then activateDisplay s virIdx true
        else s
    else nonBuiltinConcurrency s disp sec

/-- Connect, disconnect and power-mode events as routed by the session
layer.  `connectExt`/`disconnectExt` follow
`HandleConnectedDisplays`/`DestroyPluggableDisplay` (the handler runs,
twice on connect: after creation and after the hotplug notification);
virtual and extra-builtin connect/disconnect follow
`CreateVirtualDisplayObj`/`HandleBuiltInDisplays`/
`DestroyNonPluggableDisplay`, which do not run the handler; `powerSet`
follows `SetPowerMode` (set the power mode, then run the handler);
`makeReady` is the first present on the primary display setting
`primary_ready_`. -/
inductive ConcEvent
  | makeReady
  | connectExt
  | disconnectExt
  | connectVir
  | disconnectVir
  | connectBuiltin2
  | disconnectBuiltin2
  | powerSet (disp : Nat) (turnOn : Bool)
deriving DecidableEq, Repr

/-- One session-layer event step. -/
def stepEvent (s : ConcState) : ConcEvent → ConcState
  | .makeReady => { s with primaryReady := true }
  | .connectExt =>
    if s.ext.occupied then s
    else
      let s1 := { s with ext := ⟨true, false⟩ }
      handleConcurrency (handleConcurrency s1 extIdx) extIdx
  | .disconnectExt =>
    if s.ext.occupied then
      handleConcurrency { s with ext := ⟨false, false⟩ } extIdx
    else s
  | .connectVir =>
    if s.vir.occupied then s else { s with vir := ⟨true, false⟩ }
  | .disconnectVir => { s with vir := ⟨false, false⟩ }
  | .connectBuiltin2 =>
    if s.builtin2.occupied then s else { s with builtin2 := ⟨true, false⟩ }
  | .disconnectBuiltin2 => { s with builtin2 := ⟨false, false⟩ }
  | .powerSet disp turnOn =>
    if (getSlot s disp).occupied then
      handleConcurrency (setSlot s disp ⟨true, turnOn⟩) disp
    else s

/-- Run a list of events. -/
def runEvents (s : ConcState) (evs : List ConcEvent) : ConcState :=
  evs.foldl stepEvent s

/-- Boot state: builtin primary occupied, everything else unoccupied,
primary not yet ready. -/
def concInit : ConcState :=
  ⟨false, ⟨true, true⟩, ⟨false, false⟩, ⟨false, false⟩, ⟨false, false⟩⟩

/-- The event sequence on which the concurrency invariant fails: ready
primary, pluggable connect, virtual create, pluggable disconnect (which
activates the pending virtual display), pluggable reconnect (deactivated
because the virtual display is present), then any power-mode change on
the primary (which re-activates the pluggable display without
deactivating the virtual one). -/
def concFailingSeq : List ConcEvent :=
  [.makeReady, .connectExt, .connectVir, .disconnectExt, .connectExt,
   .powerSet 0 true]

/-! ## Power-hint worker (`HWCSession::PowerHalHintWorker`)

The worker's refresh-rate update loop (`updateRefreshRateHintInternal`,
`sendRefreshRateHint`, `checkRefreshRateHintSupport`).  Calls to the
power service's `setMode` for `REFRESH_<rate>FPS` hints are recorded as
`HintCall` events.  Transport outcomes of each `setMode` call come from
an oracle list `env` (head consumed per call, empty list meaning all
calls succeed); support answers come from `hw` (support queries are
modelled as transport-reliable, which the claim's scenarios assume).
The float rounding of vsync period to a rate is outside the claim; the
embedding takes the already-computed integer rate. -/

/-- A `setMode(REFRESH_<rate>FPS, enabled)` call to the power service. -/
inductive HintCall
  | enable (rate : Int)
  | disable (rate : Int)
deriving DecidableEq, Repr

/-- Return codes of the hint helpers. -/
inductive RetCode
  | ok
  | notconn
  | einval
  | eopnotsupp
deriving DecidableEq, Repr

/-- Worker state: `mPrevRefreshRate`, `mPendingPrevRefreshRate`, and the
`mRefreshRateHintSupportMap` cache. -/
structure PHState where
  prevRefreshRate : Int
  pendingPrevRefreshRate : Int
  supportMap : List (Int × Bool)
deriving DecidableEq, Repr

/-- Lookup in the support cache. -/
def lookupSupport : List (Int × Bool) → Int → Option Bool
  | [], _ => none
  | (r, b) :: rest, rate => if r = rate then some b else lookupSupport rest rate

/-- Embedding of `PowerHalHintWorker::sendRefreshRateHint`: send the
`setMode` call; on a binder transport failure (`-ENOTCONN`) reset both
refresh-rate bookkeeping fields. -/
def sendRefreshRateHint (s : PHState) (env : List RetCode) (rate : Int)
    (enabled : Bool) : PHState × List RetCode × List HintCall × RetCode :=
  let r := env.headD .ok
  let ev := [if enabled then HintCall.enable rate else HintCall.disable rate]
  if r = .notconn then
    ({ s with prevRefreshRate := 0, pendingPrevRefreshRate := 0 }, env.tail, ev, r)
  else (s, env.tail, ev, r)

/-- Embedding of `PowerHalHintWorker::checkRefreshRateHintSupport`:
consult the cache, else query the power service and cache the answer. -/
def checkRefreshRateHintSupport (s : PHState) (hw : Int → Bool) (rate : Int) :
    PHState × RetCode :=
  match lookupSupport s.supportMap rate with
  | some b => (s, if b then .ok else .eopnotsupp)
  | none =>
    let b := hw rate
    ({ s with supportMap := (rate, b) :: s.supportMap },
     if b then .ok else .eopnotsupp)

/-- First step of `updateRefreshRateHintInternal`: "We should disable
pending hint before other operations" — retry disabling a hint whose
disable failed in a prior round.  `none` means continue; `some r` means
return `r` immediately. -/
def disablePendingHint (s : PHState) (env : List RetCode) :
    PHState × List RetCode × List HintCall × Option RetCode :=
  if s.pendingPrevRefreshRate = 0 then (s, env, [], none)
  else
    let (s1, env1, ev1, r1) := sendRefreshRateHint s env s.pendingPrevRefreshRate false
    if r1 = .ok then ({ s1 with pendingPrevRefreshRate := 0 }, env1, ev1, none)
    else (s1, env1, ev1, some r1)

/-- Remainder of `updateRefreshRateHintInternal` after the pending-hint
retry: disable on power-off; no-op on an unchanged rate; else check
support, enable the new rate's hint first, then disable the previous
rate's hint, saving it as pending if the disable fails without a
transport error. -/
def updateRefreshRateBody (s0 : PHState) (hw : Int → Bool) (env0 : List RetCode)
    (powerOn : Bool) (refreshRate : Int) : PHState × List HintCall × RetCode :=
  if ¬ powerOn then
    if s0.prevRefreshRate ≠ 0 then
      let (s1, _, ev1, r1) := sendRefreshRateHint s0 env0 s0.prevRefreshRate false
      let s2 := if r1 = .ok then { s1 with prevRefreshRate := 0 } else s1
      (s2, ev1, r1)
    else (s0, [], .ok)
  else if s0.prevRefreshRate = refreshRate then (s0, [], .ok)
  else
    let (sc, rc) := checkRefreshRateHintSupport s0 hw refreshRate
    if rc ≠ .ok then (sc, [], rc)
    else
      let (s2, env2, ev2, r2) := sendRefreshRateHint sc env0 refreshRate true
      if r2 ≠ .ok then (s2, ev2, r2)
      else if s2.prevRefreshRate ≠ 0 then
        let (s3, _, ev3, r3) := sendRefreshRateHint s2 env2 s2.prevRefreshRate false
        if r3 = .ok then
          ({ s3 with prevRefreshRate := refreshRate }, ev2 ++ ev3, .ok)
        else if r3 = .notconn then (s3, ev2 ++ ev3, r3)
        else
          ({ s3 with pendingPrevRefreshRate := s3.prevRefreshRate,
                     prevRefreshRate := refreshRate }, ev2 ++ ev3, r3)
      else ({ s2 with prevRefreshRate := refreshRate }, ev2, .ok)

/-- Embedding of `PowerHalHintWorker::updateRefreshRateHintInternal`. -/
def updateRefreshRateHintInternal (s : PHState) (hw : Int → Bool)
    (env : List RetCode) (powerOn : Bool) (refreshRate : Int) :
    PHState × List HintCall × RetCode :=
  match disablePendingHint s env with
  | (s0, _, ev0, some r0) => (s0, ev0, r0)
  | (s0, env0, ev0, none) =>
    let (s1, ev1, r1) := updateRefreshRateBody s0 hw env0 powerOn refreshRate
    (s1, ev0 ++ ev1, r1)

/-- The worker processing a sequence of refresh-rate signals while the
display stays on and all power-service calls succeed. -/
def runRefreshRateSignals (s : PHState) (hw : Int → Bool) :
    List Int → PHState × List HintCall
  | [] => (s, [])
  | r :: rest =>
    let (s1, ev1, _) := updateRefreshRateHintInternal s hw [] true r
    let (s2, ev2) := runRefreshRateSignals s1 hw rest
    (s2, ev1 ++ ev2)

/-! ## Slot registry, hotplug scan and destroy
(`DisplayMapInfo`, `HandleBuiltInDisplays`, `HandleConnectedDisplays`,
`CreatePrimaryDisplay`, `CreatePluggableDisplays`,
`DestroyPluggableDisplay`, `DestroyNonPluggableDisplay`) -/

/-- `sdm::DisplayType` (the values the session layer uses). -/
inductive DisplayType
  | kBuiltIn
  | kPluggable
  | kVirtual
  | kDisplayTypeMax
deriving DecidableEq, Repr

/-- Embedding of `HWCSession::DisplayMapInfo`. -/
structure DisplayMapInfo where
  client_id : Nat
  sdm_id : Int
  disp_type : DisplayType
  test_pattern : Bool
deriving DecidableEq, Repr

/-- Embedding of `DisplayMapInfo::Reset`: clear the transient fields,
do not clear the client id. -/
def DisplayMapInfo.Reset (m : DisplayMapInfo) : DisplayMapInfo :=
  { m with sdm_id := -1, disp_type := .kDisplayTypeMax, test_pattern := false }

/-- One entry of `GetDisplaysStatus`'s hardware snapshot. -/
structure HWInfo where
  display_id : Int
  display_type : DisplayType
  is_primary : Bool
  is_connected : Bool
deriving DecidableEq, Repr

/-- The filter of `HandleBuiltInDisplays`'s loop: non-primary, builtin,
connected. -/
def builtinQualifies (i : HWInfo) : Bool :=
  !i.is_primary && (i.display_type == DisplayType.kBuiltIn) && i.is_connected

/-- Embedding of the slot-assignment loop of
`HWCSession::HandleBuiltInDisplays` (display creation succeeding),
returning the `(slot index, sdm id)` pairs created.  The loop body
increments `client_id` twice per created display — once right after
`Create` and once more at the end of the iteration — exactly as the
source does; when the index reaches the pool size the function returns,
dropping the remaining displays with only a warning. -/
def handleBuiltInAssign (numSlots : Nat) : Nat → List HWInfo → List (Nat × Int)
  | _, [] => []
  | cid, i :: rest =>
    if !builtinQualifies i then handleBuiltInAssign numSlots cid rest
    else if numSlots ≤ cid then []
    else (cid, i.display_id) :: handleBuiltInAssign numSlots (cid + 1 + 1) rest

/-- `HandleBuiltInDisplays` starts its running index at 0. -/
def handleBuiltInDisplays (numSlots : Nat) (infos : List HWInfo) : List (Nat × Int) :=
  handleBuiltInAssign numSlots 0 infos

/-- First unoccupied index of a slot-occupancy list. -/
def firstFreeSlot : List Bool → Option Nat
  | [] => none
  | occ :: rest => if occ then (firstFreeSlot rest).map (· + 1) else some 0

/-- Embedding of the pluggable part of
`HWCSession::HandleConnectedDisplays` (display creation succeeding):
each connected, non-primary pluggable display of the snapshot takes the
first unoccupied pluggable slot; when no slot is free the display is
dropped and the scan continues; the scan returns 0 (success) either
way.  Returns the assigned slot indices, the new occupancy, and the
status. -/
def handleConnectedDisplays : List Bool → List HWInfo → List Nat × List Bool × Int
  | slots, [] => ([], slots, 0)
  | slots, i :: rest =>
    if !(!i.is_primary && (i.display_type == DisplayType.kPluggable) && i.is_connected) then
      handleConnectedDisplays slots rest
    else
      match firstFreeSlot slots with
      | none => handleConnectedDisplays slots rest
      | some idx =>
        match handleConnectedDisplays (slots.set idx true) rest with
        | (assigned, slots2, st) => (idx :: assigned, slots2, st)

/-- Which display class `HWCSession::CreatePrimaryDisplay` creates for
the primary hardware display. -/
inductive PrimaryKind
  | dummy
  | builtin
  | pluggableConn
  | spurious
deriving DecidableEq, Repr

/-- Embedding of the class-selection branch of
`HWCSession::CreatePrimaryDisplay` for the primary snapshot entry:
returns the created class and the resulting
`(pluggable_is_primary_, null_display_active_)` flags.  A
pluggable-category primary that is disconnected at boot gets a dummy
placeholder and sets `null_display_active_`. -/
def createPrimaryDisplay (info : HWInfo) : PrimaryKind × Bool × Bool :=
  if !info.is_connected && (info.display_type == DisplayType.kPluggable) then
    (.dummy, true, true)
  else if info.display_type == DisplayType.kBuiltIn then
    (.builtin, false, false)
  else if info.is_connected && (info.display_type == DisplayType.kPluggable) then
    (.pluggableConn, true, false)
  else
    (.spurious, false, false)

/-- Outcome of a pluggable hotplug scan. -/
inductive ScanOutcome
  | notReady
  | abortProcess (dummyDestroyed : Bool) (coreDestroyed : Bool)
  | enumFailed
  | scanned
deriving DecidableEq, Repr

/-- Embedding of the dispatch prefix of
`HWCSession::CreatePluggableDisplays`: no-op before the primary is
ready; if the dummy placeholder occupies the primary slot
(`null_display_active_`), destroy the dummy display, destroy the core
and abort the process; if the hardware enumeration fails, return an
error aborting only this scan; otherwise run the scan. -/
def createPluggableDisplays (primaryReady nullDisplayActive enumOk : Bool) :
    ScanOutcome :=
  if !primaryReady then .notReady
  else if nullDisplayActive then .abortProcess true true
  else if !enumOk then .enumFailed
  else .scanned

/-- One registry slot: its map info and whether a display object
occupies it. -/
structure Slot where
  info : DisplayMapInfo
  occupied : Bool
deriving DecidableEq, Repr

/-- Embedding of `HWCSession::DestroyNonPluggableDisplay` on the slot:
no-op when unoccupied; else destroy the object and reset the map
info. -/
def destroyNonPluggableDisplay (s : Slot) : Slot :=
  if !s.occupied then s
  else { occupied := false, info := s.info.Reset }

/-- Embedding of `HWCSession::DestroyPluggableDisplay` on the slot:
no-op when unoccupied; when the pluggable display is the primary, the
display object persists and only its active state changes (no destroy,
no reset); otherwise destroy the object and reset the map info. -/
def destroyPluggableDisplay (pluggableIsPrimary : Bool) (s : Slot) : Slot :=
  if !s.occupied then s
  else if pluggableIsPrimary then s
  else { occupied := false, info := s.info.Reset }

/-! ## Theorems -/

/-- Helper: `lowestSetBit` returns an index holding `true` with all
earlier indices `false`. -/
theorem lowestSetBit_spec (pending : List Bool) (i : Nat)
    (h : lowestSetBit pending = some i) :
    pending.get? i = some true ∧ ∀ j, j < i → pending.get? j = some false := by
  induction pending generalizing i with
  | nil => simp [lowestSetBit] at h
  | cons b rest ih =>
    by_cases hb : b
    · simp [lowestSetBit, hb] at h
      subst h
      simp [hb]
    · simp [lowestSetBit, hb] at h
      obtain ⟨k, hk, hik⟩ := h
      subst hik
      obtain ⟨h1, h2⟩ := ih k hk
      refine ⟨h1, ?_⟩
      intro j hj
      cases j with
      | zero => simpa using hb
      | succ j =>
        simpa using h2 j (by omega)

/-- Helper: if some bit is set, `lowestSetBit` finds one. -/
theorem lowestSetBit_isSome_of_mem (pending : List Bool)
    (h : true ∈ pending) : (lowestSetBit pending).isSome := by
  induction pending with
  | nil => simp at h
  | cons b rest ih =>
    by_cases hb : b
    · simp [lowestSetBit, hb]
    · have : true ∈ rest := by
        rcases List.mem_cons.mp h with h1 | h1
        · exact absurd h1.symm hb
        · exact h1
      have hsome := ih this
      simp [lowestSetBit, hb]
      rcases Option.isSome_iff_exists.mp hsome with ⟨k, hk⟩
      simp [hk]

/-- C5: after the present path returns, if any pending-refresh bit is
set, exactly one display is serviced in that round — the lowest-indexed
set bit — by issuing a `Refresh` request to the frame-producer client,
and the served display's bit is cleared afterwards. -/
theorem pendingRefresh_serves_lowest (pending : List Bool)
    (h : true ∈ pending) :
    ∃ i, handlePendingRefresh pending = ([i], List.replicate pending.length false) ∧
      pending.get? i = some true ∧
      (∀ j, j < i → pending.get? j = some false) ∧
      (handlePendingRefresh pending).2.get? i = some false := by
  have hsome := lowestSetBit_isSome_of_mem pending h
  rcases Option.isSome_iff_exists.mp hsome with ⟨i, hi⟩
  obtain ⟨hset, hbelow⟩ := lowestSetBit_spec pending i hi
  refine ⟨i, ?_, hset, hbelow, ?_⟩
  · simp [handlePendingRefresh, hi]
  · have hlt : i < pending.length := List.get?_eq_some.mp hset |>.1
    simp [handlePendingRefresh, hi, List.get?_eq_get, hlt]

/-- Witness for C5 at a concrete bitset: bits 1 and 2 pending, bit 1 is
served and cleared. -/
theorem pendingRefresh_serves_lowest_witness :
    ∃ i, handlePendingRefresh [false, true, true] =
        ([i], List.replicate [false, true, true].length false) ∧
      [false, true, true].get? i = some true ∧
      (∀ j, j < i → [false, true, true].get? j = some false) ∧
      (handlePendingRefresh [false, true, true]).2.get? i = some false :=
  pendingRefresh_serves_lowest [false, true, true] (by decide)

/-- C4: `ValidateDisplay` enters the sequence scope and cancels it for
every outcome other than success or has-changes (leaving it pending on
those two); `PresentDisplay` exits the sequence scope unconditionally and
additionally cancels it for every failure outcome other than
`NotValidated`; after any outcome of present, and after any failed
validate, the slot's sequencing state is back to idle (immediately
reusable). -/
theorem sequence_lock_discipline (s : SeqState) (st : HErr) :
    ((validateDisplaySeqTrace st).head? = some .entryScope) ∧
    (st ≠ .success → st ≠ .hasChanges →
      .cancelScope ∈ validateDisplaySeqTrace st ∧
      runSeq s (validateDisplaySeqTrace st) = .idle) ∧
    ((st = .success ∨ st = .hasChanges) →
      runSeq s (validateDisplaySeqTrace st) = .pending) ∧
    ((presentDisplaySeqTrace st).head? = some .exitScope) ∧
    (st ≠ .success → st ≠ .notValidated →
      .cancelScope ∈ presentDisplaySeqTrace st) ∧
    (runSeq s (presentDisplaySeqTrace st) = .idle) := by
  cases s <;> cases st <;> decide

/-- Witness for C4 at concrete outcomes: a failed validate
(`BadDisplay`) resets the sequencing state, and a failed present
(`BadParameter`) cancels and resets it. -/
theorem sequence_lock_discipline_witness :
    (HWCS.SeqEvent.cancelScope ∈ validateDisplaySeqTrace .badDisplay ∧
      runSeq .pending (validateDisplaySeqTrace .badDisplay) = .idle) ∧
    (HWCS.SeqEvent.cancelScope ∈ presentDisplaySeqTrace .badParameter) ∧
    runSeq .idle (presentDisplaySeqTrace .badParameter) = .idle :=
  ⟨(sequence_lock_discipline .pending .badDisplay).2.1 (by decide) (by decide),
   (sequence_lock_discipline .idle .badParameter).2.2.2.2.1 (by decide) (by decide),
   (sequence_lock_discipline .idle .badParameter).2.2.2.2.2⟩

/-- C2: calling validate twice in a row on the same occupied display with
no intervening state change yields the identical
`out_num_types`/`out_num_requests` result (and the same error outcome)
the second time, and the second call is served from the cached internal
validation (`GetValidateDisplayOutput`) instead of re-running. -/
theorem validate_twice_served_from_cache (isPrimary : Bool)
    (fl : SessionFlags) (d : Display) :
    (validateDisplayInternal isPrimary
        (validateDisplayInternal isPrimary fl d).flags
        (validateDisplayInternal isPrimary fl d).disp).outNumTypes =
      (validateDisplayInternal isPrimary fl d).outNumTypes ∧
    (validateDisplayInternal isPrimary
        (validateDisplayInternal isPrimary fl d).flags
        (validateDisplayInternal isPrimary fl d).disp).outNumRequests =
      (validateDisplayInternal isPrimary fl d).outNumRequests ∧
    (validateDisplayInternal isPrimary
        (validateDisplayInternal isPrimary fl d).flags
        (validateDisplayInternal isPrimary fl d).disp).err =
      (validateDisplayInternal isPrimary fl d).err ∧
    (validateDisplayInternal isPrimary
        (validateDisplayInternal isPrimary fl d).flags
        (validateDisplayInternal isPrimary fl d).disp).servedFromCache = true := by
  by_cases h : d.vstate = .internalValidate <;>
    simp [validateDisplayInternal, Display.isInternalValidateState,
      Display.validateRun, Display.getValidateDisplayOutput, h]

/-- C3: if a display is in skip-validate state but the fast-path
precondition no longer holds, present first runs an implicit validation,
and if that validation fails (has changes or an error) or reveals
required client composition, present returns `NotValidated` without
presenting, leaving the display in the internal-validate state from
which the caller's next validate is answered; in particular, present
without a prior validate on a freshly connected display returns
`NotValidated` and presents nothing. -/
theorem present_requires_validation (isPrimary : Bool) (fl : SessionFlags)
    (d : Display) :
    (d.vstate = .skipValidate → d.canSkip = false →
      ((validateDisplayInternal isPrimary fl d).err ≠ .success ∨
        (validateDisplayInternal isPrimary fl d).disp.hasClientComp = true) →
      (presentDisplayInternal isPrimary fl d).err = .notValidated ∧
      (presentDisplayInternal isPrimary fl d).didPresent = false ∧
      (presentDisplayInternal isPrimary fl d).disp.vstate = .internalValidate) ∧
    (d.freshlyConnected →
      (presentDisplayInternal isPrimary fl d).err = .notValidated ∧
      (presentDisplayInternal isPrimary fl d).didPresent = false) := by
  constructor
  · intro hsv hcs herr
    have hcond : d.vstate = .skipValidate ∧ ¬ d.canSkip = true := by
      simp [hsv, hcs]
    rcases herr with herr | herr
    · simp [presentDisplayInternal, hcond, herr]
    · simp [presentDisplayInternal, hcond, herr]
  · intro hfresh
    have hv : d.vstate = .unvalidated := hfresh
    have hcond : ¬ (d.vstate = .skipValidate ∧ ¬ d.canSkip = true) := by
      simp [hv]
    simp [presentDisplayInternal, hcond, Display.presentRun, hv]

/-- Witness for C3: a skip-validate display whose implicit validation
reports changes is rejected with `NotValidated`, and a freshly connected
display cannot present. -/
theorem present_requires_validation_witness :
    ((presentDisplayInternal false ⟨false, false⟩
        ⟨.skipValidate, 1, 0, 0, 0, false, false, [], false⟩).err = .notValidated ∧
      (presentDisplayInternal false ⟨false, false⟩
        ⟨.skipValidate, 1, 0, 0, 0, false, false, [], false⟩).didPresent = false ∧
      (presentDisplayInternal false ⟨false, false⟩
        ⟨.skipValidate, 1, 0, 0, 0, false, false, [], false⟩).disp.vstate =
        .internalValidate) ∧
    ((presentDisplayInternal false ⟨false, false⟩
        ⟨.unvalidated, 0, 0, 0, 0, false, false, [], false⟩).err = .notValidated ∧
      (presentDisplayInternal false ⟨false, false⟩
        ⟨.unvalidated, 0, 0, 0, 0, false, false, [], false⟩).didPresent = false) :=
  ⟨(present_requires_validation false ⟨false, false⟩
      ⟨.skipValidate, 1, 0, 0, 0, false, false, [], false⟩).1 rfl rfl
      (by left; decide),
   (present_requires_validation false ⟨false, false⟩
      ⟨.unvalidated, 0, 0, 0, 0, false, false, [], false⟩).2 rfl⟩

/-- C10: `CallLayerFunction` returns `BadDisplay` for an unoccupied slot
and `BadLayer` for an unknown layer handle, in both cases without
invoking the member function or changing the display; and whenever the
member operation leaves geometry changes on the display, the display's
validation state is reset, so it is not eligible for the skip-validate
fast path. -/
theorem callLayerFunction_geometry_resets_validation
    (numDisplays display : Nat) (layer : Nat) (op : Display → Display)
    (st : HErr) (hd : display < numDisplays) :
    (callLayerFunction true numDisplays display none layer op st =
      (none, .badDisplay, false)) ∧
    (∀ d : Display, layer ∉ d.layers →
      callLayerFunction true numDisplays display (some d) layer op st =
        (some d, .badLayer, false)) ∧
    (∀ d : Display, layer ∈ d.layers → (op d).geometryChanges = true →
      callLayerFunction true numDisplays display (some d) layer op st =
        (some ((op d).resetValidation), st, true) ∧
      ((op d).resetValidation).vstate ≠ .skipValidate) := by
  have hnd : ¬ numDisplays ≤ display := by omega
  refine ⟨by simp [callLayerFunction, hnd], ?_, ?_⟩
  · intro d hmem
    simp [callLayerFunction, hnd, hmem]
  · intro d hmem hgeo
    refine ⟨by simp [callLayerFunction, hnd, hmem, hgeo], ?_⟩
    simp [Display.resetValidation]

/-- Witness for C10 at a concrete slot, layer and operation. -/
theorem callLayerFunction_geometry_resets_validation_witness :
    (callLayerFunction true 4 1 none 7
        (fun d => { d with geometryChanges := true }) .success =
      (none, .badDisplay, false)) ∧
    (callLayerFunction true 4 1
        (some ⟨.skipValidate, 0, 0, 0, 0, false, true, [7], false⟩) 9
        (fun d => { d with geometryChanges := true }) .success =
      (some ⟨.skipValidate, 0, 0, 0, 0, false, true, [7], false⟩, .badLayer, false)) ∧
    (callLayerFunction true 4 1
        (some ⟨.skipValidate, 0, 0, 0, 0, false, true, [7], false⟩) 7
        (fun d => { d with geometryChanges := true }) .success =
      (some ((fun (d : Display) => { d with geometryChanges := true })
          ⟨.skipValidate, 0, 0, 0, 0, false, true, [7], false⟩).resetValidation,
        .success, true)) :=
  ⟨(callLayerFunction_geometry_resets_validation 4 1 7
      (fun d => { d with geometryChanges := true }) .success (by decide)).1,
   (callLayerFunction_geometry_resets_validation 4 1 9
      (fun d => { d with geometryChanges := true }) .success (by decide)).2.1
      ⟨.skipValidate, 0, 0, 0, 0, false, true, [7], false⟩ (by decide),
   ((callLayerFunction_geometry_resets_validation 4 1 7
      (fun d => { d with geometryChanges := true }) .success (by decide)).2.2
      ⟨.skipValidate, 0, 0, 0, 0, false, true, [7], false⟩ (by decide) rfl).1⟩

/-- C1 (refuted on the code): the concurrency-policy invariant fails.
Along the reachable event sequence `concFailingSeq` the invariant holds
up to the last event, and the final power-mode event on the primary
display — handled by `HandleConcurrency` with the primary ready —
re-activates the present pluggable display while the virtual display is
still active, leaving the pluggable and the virtual display both
active. -/
theorem concurrency_invariant_violated :
    (runEvents concInit [.makeReady, .connectExt, .connectVir,
        .disconnectExt, .connectExt]).primaryReady = true ∧
    ((runEvents concInit [.makeReady, .connectExt, .connectVir,
        .disconnectExt, .connectExt]).ext.active &&
      (runEvents concInit [.makeReady, .connectExt, .connectVir,
        .disconnectExt, .connectExt]).vir.active) = false ∧
    runEvents concInit concFailingSeq =
      handleConcurrency
        (setSlot (runEvents concInit [.makeReady, .connectExt, .connectVir,
          .disconnectExt, .connectExt]) 0 ⟨true, true⟩) 0 ∧
    (runEvents concInit concFailingSeq).ext.occupied = true ∧
    (runEvents concInit concFailingSeq).ext.active = true ∧
    (runEvents concInit concFailingSeq).vir.occupied = true ∧
    (runEvents concInit concFailingSeq).vir.active = true := by
  decide

/-- C6: the refresh-rate hint update (a) first retries disabling any
pending failed-to-disable hint from a prior round, before anything else;
(b) on a switch to a new supported rate while the display is on, enables
the new rate's hint before disabling the previous rate's hint; and (c)
for the signal sequence `[60, 90, 60]` emits exactly
`enable 60, enable 90, disable 60, enable 60, disable 90`. -/
theorem refresh_rate_hint_ordering :
    (∀ (s : PHState) (hw : Int → Bool) (env : List RetCode) (powerOn : Bool)
        (rate : Int), s.pendingPrevRefreshRate ≠ 0 →
      (updateRefreshRateHintInternal s hw env powerOn rate).2.1.head? =
        some (.disable s.pendingPrevRefreshRate)) ∧
    (∀ (s : PHState) (hw : Int → Bool) (rate : Int),
      s.pendingPrevRefreshRate = 0 → s.prevRefreshRate ≠ 0 →
      s.prevRefreshRate ≠ rate → lookupSupport s.supportMap rate = some true →
      updateRefreshRateHintInternal s hw [] true rate =
        ({ s with prevRefreshRate := rate },
         [.enable rate, .disable s.prevRefreshRate], .ok)) ∧
    (runRefreshRateSignals ⟨0, 0, []⟩ (fun _ => true) [60, 90, 60]).2 =
      [.enable 60, .enable 90, .disable 60, .enable 60, .disable 90] := by
  refine ⟨?_, ?_, rfl⟩
  · intro s hw env powerOn rate hpend
    simp only [updateRefreshRateHintInternal, disablePendingHint,
      if_neg hpend, sendRefreshRateHint]
    split_ifs <;> simp_all
  · intro s hw rate h0 hprev hne hsup
    obtain ⟨p, q, m⟩ := s
    simp only at h0 hprev hne hsup
    subst h0
    simp [updateRefreshRateHintInternal, disablePendingHint, updateRefreshRateBody,
      checkRefreshRateHintSupport, sendRefreshRateHint, hsup, hprev, hne]

/-- Witness for C6 at concrete worker states: a pending rate 55 is
retried first, and a supported switch from 60 to 90 emits
`enable 90, disable 60`. -/
theorem refresh_rate_hint_ordering_witness :
    (updateRefreshRateHintInternal ⟨0, 55, []⟩ (fun _ => true) [] true 60).2.1.head? =
      some (.disable 55) ∧
    updateRefreshRateHintInternal ⟨60, 0, [(90, true)]⟩ (fun _ => true) [] true 90 =
      (⟨90, 0, [(90, true)]⟩, [.enable 90, .disable 60], .ok) :=
  ⟨refresh_rate_hint_ordering.1 ⟨0, 55, []⟩ (fun _ => true) [] true 60 (by decide),
   refresh_rate_hint_ordering.2.1 ⟨60, 0, [(90, true)]⟩ (fun _ => true) 90
     rfl (by decide) (by decide) rfl⟩

/-- C7 (refuted on the code): the builtin mapping at client registration
does not use the lowest free slot.  With three builtin slots and two
connected non-primary builtin displays, the second display is assigned
slot index 2 while index 1 is free (the loop increments the index twice
per created display); with exactly two slots the second display is
dropped although slot 1 is free.  The pluggable hotplug scan, by
contrast, does use the first free slot and silently drops a display only
when every slot is occupied, still returning success. -/
theorem builtin_mapping_skips_free_slot :
    handleBuiltInDisplays 3
        [⟨11, .kBuiltIn, false, true⟩, ⟨12, .kBuiltIn, false, true⟩] =
      [(0, 11), (2, 12)] ∧
    handleBuiltInDisplays 2
        [⟨11, .kBuiltIn, false, true⟩, ⟨12, .kBuiltIn, false, true⟩] =
      [(0, 11)] ∧
    handleConnectedDisplays [true, false]
        [⟨21, .kPluggable, false, true⟩] = ([1], [true, true], 0) ∧
    handleConnectedDisplays [true]
        [⟨21, .kPluggable, false, true⟩] = ([], [true], 0) := by
  decide

/-- C8: a pluggable hotplug scan aborts the process — after destroying
the dummy display object and the core — exactly when the primary is
ready and the dummy placeholder occupies the primary slot; an ordinary
hardware-enumeration failure only aborts the scan with an error; before
the primary is ready the scan is a no-op; and the dummy placeholder
(with `null_display_active_` set) arises from a pluggable-category
primary disconnected at boot. -/
theorem primary_pluggable_reconnect_aborts :
    (∀ r n e : Bool,
      createPluggableDisplays r n e = .abortProcess true true ↔
        (r = true ∧ n = true)) ∧
    (∀ e : Bool,
      createPluggableDisplays true false e =
        if e then .scanned else .enumFailed) ∧
    (∀ n e : Bool, createPluggableDisplays false n e = .notReady) ∧
    ScanOutcome.enumFailed ≠ .abortProcess true true ∧
    createPrimaryDisplay ⟨5, .kPluggable, true, false⟩ = (.dummy, true, true) := by
  decide

/-- C9: destroying a slot's display resets the transient fields
(`sdm_id`, `disp_type`, `test_pattern`) to their defaults while leaving
`client_id` unchanged, for both the non-pluggable and the
(non-primary) pluggable destroy paths; `Reset` itself never touches
`client_id`. -/
theorem destroy_resets_transients_keeps_client_id (s : Slot)
    (h : s.occupied = true) :
    (∀ m : DisplayMapInfo, (DisplayMapInfo.Reset m).client_id = m.client_id) ∧
    destroyNonPluggableDisplay s =
      ⟨⟨s.info.client_id, -1, .kDisplayTypeMax, false⟩, false⟩ ∧
    destroyPluggableDisplay false s =
      ⟨⟨s.info.client_id, -1, .kDisplayTypeMax, false⟩, false⟩ := by
  refine ⟨fun m => rfl, ?_, ?_⟩ <;>
    simp [destroyNonPluggableDisplay, destroyPluggableDisplay,
      DisplayMapInfo.Reset, h]

/-- Witness for C9 at a concrete occupied slot. -/
theorem destroy_resets_transients_keeps_client_id_witness :
    (∀ m : DisplayMapInfo, (DisplayMapInfo.Reset m).client_id = m.client_id) ∧
    destroyNonPluggableDisplay ⟨⟨4, 77, .kBuiltIn, true⟩, true⟩ =
      ⟨⟨4, -1, .kDisplayTypeMax, false⟩, false⟩ ∧
    destroyPluggableDisplay false ⟨⟨4, 77, .kBuiltIn, true⟩, true⟩ =
      ⟨⟨4, -1, .kDisplayTypeMax, false⟩, false⟩ :=
  destroy_resets_transients_keeps_client_id ⟨⟨4, 77, .kBuiltIn, true⟩, true⟩ rfl

end HWCS
